import Mathlib

/-!
# Verification of the user-scoped persistence layer of the `too` backend

Shallow embedding of `src/shared/schema.ts` (table shapes),
`src/unnamed/part_000` (`DatabaseStorage`: the entity store and
`seedUserData`), and `src/unnamed/part_001` (the route handlers).

Modelling conventions:
* Each Postgres table is a `List` of row structures inside a `Storage` record.
* `gen_random_uuid()` is modelled by a per-storage counter `nextId`; generated
  identifiers are `Nat`s standing for the opaque uuid strings.  Freshness of
  the generator is the invariant `∀ row, row.id < nextId`.
* Drizzle's `select ... where and(eq id, eq userId)` is `List.filter` followed
  by `head?` (the source destructures `const [row] = ...`).
* `update ... set(u)` with an object `u` whose keys are all absent throws
  `"No values to set"`; this is modelled by `updateTodo` returning
  `Except String _`.
* JS `Date` arithmetic and formatting in `seedUserData.getDateString` is
  abstracted by a parameter `dateStr : Nat → String`, where `dateStr n` is the
  runtime's `YYYY-MM-DD` rendering of the current date advanced by `n` days.
* Timestamps (`new Date()` / `defaultNow()`) are `Nat` instants passed in by
  the caller.
-/

namespace Too

/-- Row of the `users` table (`src/shared/schema.ts`, `users`). -/
structure User where
  id : String
  email : Option String
  firstName : Option String
  lastName : Option String
  profileImageUrl : Option String
  createdAt : Nat
  updatedAt : Nat
deriving Repr, DecidableEq

/-- Row of the `todos` table (`src/shared/schema.ts`, `todos`). -/
structure Todo where
  id : Nat
  userId : String
  title : String
  completed : Bool
  dayOfWeek : Int
  category : String
  priority : String
deriving Repr, DecidableEq

/-- Row of the `schedule_items` table (`src/shared/schema.ts`, `scheduleItems`). -/
structure ScheduleItem where
  id : Nat
  userId : String
  title : String
  time : String
  dayOfWeek : Int
  category : String
  completed : Bool
deriving Repr, DecidableEq

/-- Row of the `assignments` table (`src/shared/schema.ts`, `assignments`). -/
structure Assignment where
  id : Nat
  userId : String
  title : String
  dueDate : String
  completed : Bool
  category : String
deriving Repr, DecidableEq

/-- Row of the `quick_tasks` table (`src/shared/schema.ts`, `quickTasks`). -/
structure QuickTask where
  id : Nat
  userId : String
  title : String
  completed : Bool
  priority : String
deriving Repr, DecidableEq

/-- The `TaskCategory` union type of `src/shared/schema.ts` line 32. -/
def TaskCategory : List String :=
  ["science", "math", "english", "break", "social", "biology", "pe", "music",
   "free", "other"]

/-- Source `InsertTodo` (`insertTodoSchema = createInsertSchema(todos).omit({id})`):
`userId`, `title`, `dayOfWeek` are required; columns with a database default
(`completed`, `category`, `priority`) are optional, `none` meaning the key is
absent and the column default applies. -/
structure InsertTodo where
  userId : String
  title : String
  completed : Option Bool := none
  dayOfWeek : Int
  category : Option String := none
  priority : Option String := none
deriving Repr, DecidableEq

/-- Source `InsertScheduleItem` analogous to `InsertTodo`. -/
structure InsertScheduleItem where
  userId : String
  title : String
  time : String
  dayOfWeek : Int
  category : Option String := none
  completed : Option Bool := none
deriving Repr, DecidableEq

/-- Source `InsertAssignment` analogous to `InsertTodo`. -/
structure InsertAssignment where
  userId : String
  title : String
  dueDate : String
  completed : Option Bool := none
  category : Option String := none
deriving Repr, DecidableEq

/-- Source `InsertQuickTask` analogous to `InsertTodo`. -/
structure InsertQuickTask where
  userId : String
  title : String
  completed : Option Bool := none
  priority : Option String := none
deriving Repr, DecidableEq

/-- The persistent state behind `db`: one list per table, plus the uuid
generator counter (see the module conventions). -/
structure Storage where
  users : List User := []
  todos : List Todo := []
  scheduleItems : List ScheduleItem := []
  assignments : List Assignment := []
  quickTasks : List QuickTask := []
  nextId : Nat := 0
deriving Repr, DecidableEq

/-- Source `UpsertUser` payload as supplied by the auth caller: the user id from the
auth claims plus the profile columns (each nullable in the table, hence
`Option`). -/
structure UpsertUserData where
  id : String
  email : Option String := none
  firstName : Option String := none
  lastName : Option String := none
  profileImageUrl : Option String := none
deriving Repr, DecidableEq

/-- Source `getUser`: `select from users where eq(users.id, id)`, first row. -/
def getUser (s : Storage) (id : String) : Option User :=
  (s.users.filter (fun u => u.id == id)).head?

/-- Source `upsertUser`: `insert ... values(userData).onConflictDoUpdate({target: id,
set: {...userData, updatedAt: new Date()}}).returning()`.  `now` is the value
of `new Date()` / the column defaults at call time. -/
def upsertUser (s : Storage) (d : UpsertUserData) (now : Nat) : User × Storage :=
  match (s.users.filter (fun u => u.id == d.id)).head? with
  | some existing =>
    let updated : User :=
      { id := d.id, email := d.email, firstName := d.firstName,
        lastName := d.lastName, profileImageUrl := d.profileImageUrl,
        createdAt := existing.createdAt, updatedAt := now }
    (updated,
     { s with users := s.users.map (fun u => if u.id == d.id then updated else u) })
  | none =>
    let created : User :=
      { id := d.id, email := d.email, firstName := d.firstName,
        lastName := d.lastName, profileImageUrl := d.profileImageUrl,
        createdAt := now, updatedAt := now }
    (created, { s with users := s.users ++ [created] })

/-- Source `getTodos(userId)`: `select from todos where eq(todos.userId, userId)`. -/
def getTodos (s : Storage) (userId : String) : List Todo :=
  s.todos.filter (fun t => t.userId == userId)

/-- Source `getTodo(id, userId)`: `select from todos where and(eq(todos.id, id),
eq(todos.userId, userId))`, first row or `undefined`. -/
def getTodo (s : Storage) (id : Nat) (userId : String) : Option Todo :=
  (s.todos.filter (fun t => t.id == id && t.userId == userId)).head?

/-- Row produced by `insert(todos).values(todo)`: the generated primary key
plus the column defaults for absent optional keys. -/
def insertTodoRow (s : Storage) (r : InsertTodo) : Todo :=
  { id := s.nextId, userId := r.userId, title := r.title,
    completed := r.completed.getD false, dayOfWeek := r.dayOfWeek,
    category := r.category.getD "other", priority := r.priority.getD "medium" }

/-- Source `createTodo(todo)`: insert with generated id, returning the created row. -/
def createTodo (s : Storage) (r : InsertTodo) : Todo × Storage :=
  let t := insertTodoRow s r
  (t, { s with todos := s.todos ++ [t], nextId := s.nextId + 1 })

/-- The `updates` object reaching `db.update(todos).set(updates)`.  Through the
typed store interface it is `Partial<InsertTodo>`; through the unvalidated
`PATCH` route it is the raw request body, which may also carry `id`.  `none`
means the key is absent. -/
structure TodoUpdates where
  id : Option Nat := none
  userId : Option String := none
  title : Option String := none
  completed : Option Bool := none
  dayOfWeek : Option Int := none
  category : Option String := none
  priority : Option String := none
deriving Repr, DecidableEq

def TodoUpdates.isEmpty (u : TodoUpdates) : Bool :=
  u.id.isNone && u.userId.isNone && u.title.isNone && u.completed.isNone &&
  u.dayOfWeek.isNone && u.category.isNone && u.priority.isNone

/-- Effect of `set(u)` on one row: present keys overwrite the column, absent
keys leave it. -/
def applyTodoUpdates (u : TodoUpdates) (t : Todo) : Todo :=
  { id := u.id.getD t.id, userId := u.userId.getD t.userId,
    title := u.title.getD t.title, completed := u.completed.getD t.completed,
    dayOfWeek := u.dayOfWeek.getD t.dayOfWeek,
    category := u.category.getD t.category,
    priority := u.priority.getD t.priority }

/-- Source `updateTodo(id, userId, updates)`: `update(todos).set(updates).where(and(eq
id, eq userId)).returning()`, first returned row or `undefined`.  Drizzle
throws `"No values to set"` when `updates` has no keys. -/
def updateTodo (s : Storage) (id : Nat) (userId : String) (u : TodoUpdates) :
    Except String (Option Todo × Storage) :=
  if u.isEmpty then .error "No values to set"
  else
    let matches_ := fun (t : Todo) => t.id == id && t.userId == userId
    .ok ((s.todos.filter matches_).map (applyTodoUpdates u) |>.head?,
         { s with todos :=
             s.todos.map (fun t => if matches_ t then applyTodoUpdates u t else t) })

/-- Source `deleteTodo(id, userId)`: `delete(todos).where(and(eq id, eq
userId)).returning()`, then `result.length > 0`. -/
def deleteTodo (s : Storage) (id : Nat) (userId : String) : Bool × Storage :=
  let matches_ := fun (t : Todo) => t.id == id && t.userId == userId
  (((s.todos.filter matches_).length > 0 : Bool),
   { s with todos := s.todos.filter (fun t => !matches_ t) })

/-- Source `getScheduleItems(userId)`. -/
def getScheduleItems (s : Storage) (userId : String) : List ScheduleItem :=
  s.scheduleItems.filter (fun t => t.userId == userId)

/-- Source `getScheduleItem(id, userId)`: scoped single-row select, first row. -/
def getScheduleItem (s : Storage) (id : Nat) (userId : String) : Option ScheduleItem :=
  (s.scheduleItems.filter (fun t => t.id == id && t.userId == userId)).head?

/-- Row produced by `insert(scheduleItems).values(item)`. -/
def insertScheduleItemRow (s : Storage) (r : InsertScheduleItem) : ScheduleItem :=
  { id := s.nextId, userId := r.userId, title := r.title, time := r.time,
    dayOfWeek := r.dayOfWeek, category := r.category.getD "other",
    completed := r.completed.getD false }

/-- Source `createScheduleItem(item)`. -/
def createScheduleItem (s : Storage) (r : InsertScheduleItem) :
    ScheduleItem × Storage :=
  let t := insertScheduleItemRow s r
  (t, { s with scheduleItems := s.scheduleItems ++ [t], nextId := s.nextId + 1 })

/-- Source `getAssignments(userId)`. -/
def getAssignments (s : Storage) (userId : String) : List Assignment :=
  s.assignments.filter (fun t => t.userId == userId)

/-- Source `getAssignment(id, userId)`: scoped single-row select, first row. -/
def getAssignment (s : Storage) (id : Nat) (userId : String) : Option Assignment :=
  (s.assignments.filter (fun t => t.id == id && t.userId == userId)).head?

/-- Row produced by `insert(assignments).values(assignment)`. -/
def insertAssignmentRow (s : Storage) (r : InsertAssignment) : Assignment :=
  { id := s.nextId, userId := r.userId, title := r.title, dueDate := r.dueDate,
    completed := r.completed.getD false, category := r.category.getD "other" }

/-- Source `createAssignment(assignment)`. -/
def createAssignment (s : Storage) (r : InsertAssignment) : Assignment × Storage :=
  let t := insertAssignmentRow s r
  (t, { s with assignments := s.assignments ++ [t], nextId := s.nextId + 1 })

/-- Source `getQuickTasks(userId)`. -/
def getQuickTasks (s : Storage) (userId : String) : List QuickTask :=
  s.quickTasks.filter (fun t => t.userId == userId)

/-- Source `getQuickTask(id, userId)`: scoped single-row select, first row. -/
def getQuickTask (s : Storage) (id : Nat) (userId : String) : Option QuickTask :=
  (s.quickTasks.filter (fun t => t.id == id && t.userId == userId)).head?

/-- Row produced by `insert(quickTasks).values(task)`. -/
def insertQuickTaskRow (s : Storage) (r : InsertQuickTask) : QuickTask :=
  { id := s.nextId, userId := r.userId, title := r.title,
    completed := r.completed.getD false, priority := r.priority.getD "medium" }

/-- Source `createQuickTask(task)`. -/
def createQuickTask (s : Storage) (r : InsertQuickTask) : QuickTask × Storage :=
  let t := insertQuickTaskRow s r
  (t, { s with quickTasks := s.quickTasks ++ [t], nextId := s.nextId + 1 })

/-- The `defaultTodos` literal of `seedUserData` (part_000 lines 176-188),
with `userId` spread in as in `createTodo({ ...todo, userId })`. -/
def seedTodoRecords (userId : String) : List InsertTodo :=
  [{ userId, title := "Wake up at 6:30AM", completed := some false, dayOfWeek := 1,
     category := some "daily", priority := some "high" },
   { userId, title := "Morning Routine", completed := some false, dayOfWeek := 1,
     category := some "daily", priority := some "medium" },
   { userId, title := "Pack Bag", completed := some true, dayOfWeek := 1,
     category := some "daily", priority := some "medium" },
   { userId, title := "Check Planner", completed := some false, dayOfWeek := 1,
     category := some "daily", priority := some "medium" },
   { userId, title := "Attend Classes", completed := some false, dayOfWeek := 1,
     category := some "daily", priority := some "high" },
   { userId, title := "Take Notes", completed := some false, dayOfWeek := 1,
     category := some "daily", priority := some "medium" },
   { userId, title := "Lunch", completed := some false, dayOfWeek := 1,
     category := some "daily", priority := some "low" },
   { userId, title := "Homework", completed := some false, dayOfWeek := 1,
     category := some "daily", priority := some "high" },
   { userId, title := "Complete Math Worksheets", completed := some false,
     dayOfWeek := 1, category := some "monthly", priority := some "high" },
   { userId, title := "Study for Midterms", completed := some false, dayOfWeek := 1,
     category := some "monthly", priority := some "high" },
   { userId, title := "Work on English Essay", completed := some false,
     dayOfWeek := 1, category := some "monthly", priority := some "medium" }]

/-- The `defaultSchedule` literal of `seedUserData` (part_000 lines 194-215). -/
def seedScheduleRecords (userId : String) : List InsertScheduleItem :=
  [{ userId, title := "Science", time := "7:30", dayOfWeek := 1,
     category := some "science", completed := some false },
   { userId, title := "Math", time := "9:55", dayOfWeek := 1,
     category := some "math", completed := some true },
   { userId, title := "Break", time := "11:00", dayOfWeek := 1,
     category := some "break", completed := some true },
   { userId, title := "Social", time := "11:55", dayOfWeek := 1,
     category := some "social", completed := some false },
   { userId, title := "Music", time := "12:50", dayOfWeek := 1,
     category := some "music", completed := some false },
   { userId, title := "Free time", time := "7:30", dayOfWeek := 2,
     category := some "free", completed := some false },
   { userId, title := "PE", time := "9:55", dayOfWeek := 2,
     category := some "pe", completed := some false },
   { userId, title := "Break", time := "11:00", dayOfWeek := 2,
     category := some "break", completed := some false },
   { userId, title := "Biology", time := "11:55", dayOfWeek := 2,
     category := some "biology", completed := some false },
   { userId, title := "English", time := "12:50", dayOfWeek := 2,
     category := some "english", completed := some false },
   { userId, title := "Biology", time := "7:30", dayOfWeek := 3,
     category := some "biology", completed := some false },
   { userId, title := "Social", time := "9:55", dayOfWeek := 3,
     category := some "social", completed := some false },
   { userId, title := "Break", time := "11:00", dayOfWeek := 3,
     category := some "break", completed := some false },
   { userId, title := "PE", time := "11:55", dayOfWeek := 3,
     category := some "pe", completed := some false },
   { userId, title := "Math", time := "12:50", dayOfWeek := 3,
     category := some "math", completed := some false },
   { userId, title := "Science", time := "7:30", dayOfWeek := 4,
     category := some "science", completed := some false },
   { userId, title := "Math", time := "9:55", dayOfWeek := 4,
     category := some "math", completed := some false },
   { userId, title := "Break", time := "11:00", dayOfWeek := 4,
     category := some "break", completed := some false },
   { userId, title := "Social", time := "11:55", dayOfWeek := 4,
     category := some "social", completed := some false },
   { userId, title := "Biology", time := "12:50", dayOfWeek := 4,
     category := some "biology", completed := some false }]

/-- The `defaultAssignments` literal of `seedUserData` (part_000 lines
228-232); `dateStr n` is `getDateString(n)`, i.e. today advanced by `n` days
rendered `YYYY-MM-DD`. -/
def seedAssignmentRecords (userId : String) (dateStr : Nat → String) :
    List InsertAssignment :=
  [{ userId, title := "Math Homework", dueDate := dateStr 5,
     completed := some false, category := some "math" },
   { userId, title := "Science Project", dueDate := dateStr 10,
     completed := some false, category := some "science" },
   { userId, title := "English Essay", dueDate := dateStr 3,
     completed := some false, category := some "english" }]

/-- Source `seedUserData(userId)`: return early if the user already has a todo,
otherwise create each default row in order through the store's create
operations. -/
def seedUserData (s : Storage) (userId : String) (dateStr : Nat → String) :
    Storage :=
  if (getTodos s userId).length > 0 then s
  else
    let s1 := (seedTodoRecords userId).foldl (fun st r => (createTodo st r).2) s
    let s2 := (seedScheduleRecords userId).foldl
      (fun st r => (createScheduleItem st r).2) s1
    (seedAssignmentRecords userId dateStr).foldl
      (fun st r => (createAssignment st r).2) s2

/-- Raw JSON body of `POST /api/todos` as seen by
`insertTodoSchema.safeParse({ ...req.body, userId })`: any of the schema's
keys may be present, including a caller-supplied `userId`. -/
structure RawTodoBody where
  userId : Option String := none
  title : Option String := none
  completed : Option Bool := none
  dayOfWeek : Option Int := none
  category : Option String := none
  priority : Option String := none
deriving Repr, DecidableEq

/-- Responses of the `POST /api/todos` handler. -/
inductive PostTodoResponse where
  | created201 (t : Todo)
  | badRequest400
deriving Repr, DecidableEq

/-- Source `POST /api/todos` (part_001 lines 41-53): the authenticated id is spread
AFTER the body, so the parsed record's `userId` is `authUserId` whatever the
body carried; `title` and `dayOfWeek` are the required keys of
`insertTodoSchema`, their absence fails `safeParse` and yields 400 with no
store call. -/
def postTodoHandler (s : Storage) (authUserId : String) (body : RawTodoBody) :
    PostTodoResponse × Storage :=
  match body.title, body.dayOfWeek with
  | some title, some dow =>
    let parsed : InsertTodo :=
      { userId := authUserId, title := title, completed := body.completed,
        dayOfWeek := dow, category := body.category, priority := body.priority }
    let (t, s2) := createTodo s parsed
    (.created201 t, s2)
  | _, _ => (.badRequest400, s)

/-- Responses of the `PATCH /api/todos/:id` handler. -/
inductive PatchTodoResponse where
  | json200 (t : Todo)
  | notFound404
  | serverError500
deriving Repr, DecidableEq

/-- Source `PATCH /api/todos/:id` (part_001 lines 55-68): the body is passed to
`storage.updateTodo` UNVALIDATED (`const updates = req.body`); an absent row
maps to 404, a thrown storage error is caught and mapped to the generic 500
response. -/
def patchTodoHandler (s : Storage) (authUserId : String) (id : Nat)
    (body : TodoUpdates) : PatchTodoResponse × Storage :=
  match updateTodo s id authUserId body with
  | .error _ => (.serverError500, s)
  | .ok (none, s2) => (.notFound404, s2)
  | .ok (some t, s2) => (.json200 t, s2)

/-- The `updates` object with no keys: what `PATCH` with an empty JSON body
hands to `db.update(todos).set(...)`. -/
def emptyTodoUpdates : TodoUpdates := {}

/-! ## Helper lemmas -/

/-- A scoped single-row lookup only ever yields a row whose id and owner both
match the arguments. -/
theorem scoped_head_some {α : Type} {rows : List α} {rid : α → Nat}
    {ruid : α → String} {i : Nat} {u : String} {t : α}
    (h : (rows.filter (fun r => rid r == i && ruid r == u)).head? = some t) :
    rid t = i ∧ ruid t = u := by
  have ht := List.mem_of_mem_head? h
  rw [List.mem_filter] at ht
  have h2 := ht.2
  simp only [Bool.and_eq_true, beq_iff_eq] at h2
  exact h2

/-- Under the primary-key invariant, a scoped lookup for an existing row's id
under a different owner finds nothing. -/
theorem scoped_head_none {α : Type} {rows : List α} {rid : α → Nat}
    {ruid : α → String}
    (hpk : ∀ a ∈ rows, ∀ b ∈ rows, rid a = rid b → a = b)
    {E : α} (hE : E ∈ rows) {B : String} (hB : ruid E ≠ B) :
    (rows.filter (fun r => rid r == rid E && ruid r == B)).head? = none := by
  rw [List.head?_eq_none_iff, List.filter_eq_nil_iff]
  intro a ha
  simp only [Bool.and_eq_true, beq_iff_eq, not_and]
  intro hid
  have haE : a = E := hpk a ha E hE hid
  rw [haE]
  exact hB

/-! ## Claim theorems -/

/-- C1: For every entity E (todo, schedule item, assignment, or quick task)
owned by user A, and every user identifier B distinct from A, the scoped
single-item lookup `getOne(E.id, B)` reports absence and never returns E's
data; the lookup returns a row only when both the id and the owning user id
match.  (The absence half assumes the primary-key uniqueness of the `id`
columns, which the database enforces.) -/
theorem getOne_cross_user_absent (s : Storage) (A B : String) (hAB : B ≠ A)
    (hpkT : ∀ a ∈ s.todos, ∀ b ∈ s.todos, a.id = b.id → a = b)
    (hpkS : ∀ a ∈ s.scheduleItems, ∀ b ∈ s.scheduleItems, a.id = b.id → a = b)
    (hpkA : ∀ a ∈ s.assignments, ∀ b ∈ s.assignments, a.id = b.id → a = b)
    (hpkQ : ∀ a ∈ s.quickTasks, ∀ b ∈ s.quickTasks, a.id = b.id → a = b) :
    (∀ E ∈ s.todos, E.userId = A → getTodo s E.id B = none) ∧
    (∀ i u t, getTodo s i u = some t → t.id = i ∧ t.userId = u) ∧
    (∀ E ∈ s.scheduleItems, E.userId = A → getScheduleItem s E.id B = none) ∧
    (∀ i u t, getScheduleItem s i u = some t → t.id = i ∧ t.userId = u) ∧
    (∀ E ∈ s.assignments, E.userId = A → getAssignment s E.id B = none) ∧
    (∀ i u t, getAssignment s i u = some t → t.id = i ∧ t.userId = u) ∧
    (∀ E ∈ s.quickTasks, E.userId = A → getQuickTask s E.id B = none) ∧
    (∀ i u t, getQuickTask s i u = some t → t.id = i ∧ t.userId = u) := by
  refine ⟨?_, ?_, ?_, ?_, ?_, ?_, ?_, ?_⟩
  · intro E hE hEA
    exact scoped_head_none hpkT hE (by rw [hEA]; exact fun h => hAB h.symm)
  · intro i u t h
    exact scoped_head_some h
  · intro E hE hEA
    exact scoped_head_none hpkS hE (by rw [hEA]; exact fun h => hAB h.symm)
  · intro i u t h
    exact scoped_head_some h
  · intro E hE hEA
    exact scoped_head_none hpkA hE (by rw [hEA]; exact fun h => hAB h.symm)
  · intro i u t h
    exact scoped_head_some h
  · intro E hE hEA
    exact scoped_head_none hpkQ hE (by rw [hEA]; exact fun h => hAB h.symm)
  · intro i u t h
    exact scoped_head_some h

/-- A small concrete store: users "alice" and "bob", one row of each entity
kind owned by "alice". -/
def sampleStore : Storage :=
  { users := [{ id := "alice", email := some "a@x", firstName := none,
                lastName := none, profileImageUrl := none, createdAt := 1,
                updatedAt := 1 },
              { id := "bob", email := some "b@x", firstName := none,
                lastName := none, profileImageUrl := none, createdAt := 2,
                updatedAt := 2 }],
    todos := [{ id := 0, userId := "alice", title := "Read", completed := false,
                dayOfWeek := 1, category := "other", priority := "medium" }],
    scheduleItems := [{ id := 1, userId := "alice", title := "Math",
                        time := "9:55", dayOfWeek := 1, category := "math",
                        completed := false }],
    assignments := [{ id := 2, userId := "alice", title := "Essay",
                      dueDate := "2026-10-20", completed := false,
                      category := "english" }],
    quickTasks := [{ id := 3, userId := "alice", title := "Email",
                     completed := false, priority := "medium" }],
    nextId := 4 }

/-- Witness for C1 at the concrete store: user "bob" cannot see any of
"alice"'s rows. -/
theorem getOne_cross_user_absent_witness :
    (∀ E ∈ sampleStore.todos, E.userId = "alice" →
      getTodo sampleStore E.id "bob" = none) ∧
    (∀ i u t, getTodo sampleStore i u = some t → t.id = i ∧ t.userId = u) ∧
    (∀ E ∈ sampleStore.scheduleItems, E.userId = "alice" →
      getScheduleItem sampleStore E.id "bob" = none) ∧
    (∀ i u t, getScheduleItem sampleStore i u = some t →
      t.id = i ∧ t.userId = u) ∧
    (∀ E ∈ sampleStore.assignments, E.userId = "alice" →
      getAssignment sampleStore E.id "bob" = none) ∧
    (∀ i u t, getAssignment sampleStore i u = some t →
      t.id = i ∧ t.userId = u) ∧
    (∀ E ∈ sampleStore.quickTasks, E.userId = "alice" →
      getQuickTask sampleStore E.id "bob" = none) ∧
    (∀ i u t, getQuickTask sampleStore i u = some t →
      t.id = i ∧ t.userId = u) :=
  getOne_cross_user_absent sampleStore "alice" "bob" (by decide)
    (by decide) (by decide) (by decide) (by decide)

/-- C3: a non-empty partial update with the correct id and owner changes only
the supplied fields of the matched row — every field whose key is absent from
the update object keeps its prior value, every other row and every other table
is untouched — and an update whose scope matches no row (in particular a wrong
`userId`) returns absence and leaves the store entirely unmodified. -/
theorem updateTodo_applies_only_supplied_fields (s : Storage) (id : Nat)
    (uid : String) (u : TodoUpdates) (hne : u.isEmpty = false) :
    ∃ r s2, updateTodo s id uid u = .ok (r, s2) ∧
      List.Forall₂ (fun t t' : Todo =>
        (¬(t.id = id ∧ t.userId = uid) → t' = t) ∧
        (t.id = id ∧ t.userId = uid →
          (u.title = none → t'.title = t.title) ∧
          (∀ v, u.title = some v → t'.title = v) ∧
          (u.completed = none → t'.completed = t.completed) ∧
          (∀ v, u.completed = some v → t'.completed = v) ∧
          (u.dayOfWeek = none → t'.dayOfWeek = t.dayOfWeek) ∧
          (∀ v, u.dayOfWeek = some v → t'.dayOfWeek = v) ∧
          (u.category = none → t'.category = t.category) ∧
          (∀ v, u.category = some v → t'.category = v) ∧
          (u.priority = none → t'.priority = t.priority) ∧
          (∀ v, u.priority = some v → t'.priority = v) ∧
          (u.userId = none → t'.userId = t.userId) ∧
          (u.id = none → t'.id = t.id)))
        s.todos s2.todos ∧
      s2.users = s.users ∧ s2.scheduleItems = s.scheduleItems ∧
      s2.assignments = s.assignments ∧ s2.quickTasks = s.quickTasks ∧
      ((∀ t ∈ s.todos, ¬(t.id = id ∧ t.userId = uid)) → r = none ∧ s2 = s) := by
  simp only [updateTodo, hne, Bool.false_eq_true, if_false]
  refine ⟨_, _, rfl, ?_, rfl, rfl, rfl, rfl, ?_⟩
  · rw [List.forall₂_map_right_iff, List.forall₂_same]
    intro t _
    by_cases hm : t.id = id ∧ t.userId = uid
    · constructor
      · intro hc
        exact absurd hm hc
      · intro _
        rw [if_pos (by simp [hm.1, hm.2])]
        refine ⟨?_, ?_, ?_, ?_, ?_, ?_, ?_, ?_, ?_, ?_, ?_, ?_⟩ <;> intros <;>
          simp [applyTodoUpdates, *]
    · constructor
      · intro _
        rw [if_neg]
        simp only [Bool.and_eq_true, beq_iff_eq]
        exact fun h => hm h
      · intro hc
        exact absurd hc hm
  · intro hnone
    have hfil : s.todos.filter (fun t => t.id == id && t.userId == uid) = [] := by
      rw [List.filter_eq_nil_iff]
      intro t ht
      simp only [Bool.and_eq_true, beq_iff_eq]
      exact fun h => hnone t ht h
    have hmap : s.todos.map
        (fun t => if t.id == id && t.userId == uid then applyTodoUpdates u t
          else t) = s.todos := by
      have h1 : ∀ t ∈ s.todos,
          (if t.id == id && t.userId == uid then applyTodoUpdates u t else t)
            = (fun t : Todo => t) t := by
        intro t ht
        show (if (t.id == id && t.userId == uid) = true then _ else _) = _
        rw [if_neg]
        simp only [Bool.and_eq_true, beq_iff_eq]
        exact fun h => hnone t ht h
      exact (List.map_congr_left h1).trans (List.map_id _)
    constructor
    · rw [hfil]
      rfl
    · show { s with todos := _ } = s
      rw [hmap]

/-- Witness for C3: at the concrete store, toggling only `completed` on
"alice"'s todo keeps every other field, and the same update under "bob"'s
identity reports absence and changes nothing. -/
theorem updateTodo_applies_only_supplied_fields_witness :
    (updateTodo sampleStore 0 "alice" { completed := some true } =
      .ok (some { id := 0, userId := "alice", title := "Read",
                  completed := true, dayOfWeek := 1, category := "other",
                  priority := "medium" },
           { sampleStore with
              todos := [{ id := 0, userId := "alice", title := "Read",
                          completed := true, dayOfWeek := 1,
                          category := "other", priority := "medium" }] })) ∧
    (∃ r s2, updateTodo sampleStore 0 "bob" { completed := some true } =
        .ok (r, s2) ∧ r = none ∧ s2 = sampleStore) := by
  constructor
  · rfl
  · obtain ⟨r, s2, heq, -, -, -, -, -, habs⟩ :=
      updateTodo_applies_only_supplied_fields sampleStore 0 "bob"
        { completed := some true } (by decide)
    obtain ⟨hr, hs⟩ := habs (by decide)
    exact ⟨r, s2, heq, hr, hs⟩

/-- C5: `createTodo` on a store whose generator is fresh (every stored id is
below `nextId`, the invariant the uuid generator provides) returns a row whose
id was previously unused and whose owner is the record's `userId`, and an
immediate `getTodo` with that id and userId returns exactly the created row. -/
theorem createTodo_then_getTodo (s : Storage) (r : InsertTodo)
    (hfresh : ∀ t ∈ s.todos, t.id < s.nextId) :
    (∀ t ∈ s.todos, t.id ≠ (createTodo s r).1.id) ∧
    (createTodo s r).1.userId = r.userId ∧
    getTodo (createTodo s r).2 (createTodo s r).1.id r.userId
      = some (createTodo s r).1 := by
  refine ⟨?_, rfl, ?_⟩
  · intro t ht
    exact Nat.ne_of_lt (hfresh t ht)
  · show ((s.todos ++ [insertTodoRow s r]).filter _).head? = _
    rw [List.filter_append]
    have hold : s.todos.filter
        (fun t => t.id == (createTodo s r).1.id && t.userId == r.userId) = [] := by
      rw [List.filter_eq_nil_iff]
      intro t ht
      simp only [Bool.and_eq_true, beq_iff_eq, not_and]
      intro hid
      exact absurd hid (Nat.ne_of_lt (hfresh t ht))
    rw [hold]
    simp [insertTodoRow, createTodo]

/-- Witness for C5 at the concrete store. -/
theorem createTodo_then_getTodo_witness :
    (∀ t ∈ sampleStore.todos,
      t.id ≠ (createTodo sampleStore
        { userId := "bob", title := "New", dayOfWeek := 2 }).1.id) ∧
    (createTodo sampleStore
      { userId := "bob", title := "New", dayOfWeek := 2 }).1.userId = "bob" ∧
    getTodo (createTodo sampleStore
        { userId := "bob", title := "New", dayOfWeek := 2 }).2
      (createTodo sampleStore
        { userId := "bob", title := "New", dayOfWeek := 2 }).1.id "bob"
      = some (createTodo sampleStore
        { userId := "bob", title := "New", dayOfWeek := 2 }).1 :=
  createTodo_then_getTodo sampleStore
    { userId := "bob", title := "New", dayOfWeek := 2 } (by decide)

/-- C6: `deleteTodo` returns true iff a row with the given id exists and is
owned by the caller; the matched row is gone from the resulting store, and
repeating the same delete on that store returns false. -/
theorem deleteTodo_true_exactly_once (s : Storage) (id : Nat) (uid : String) :
    ((deleteTodo s id uid).1 = true ↔ ∃ t ∈ s.todos, t.id = id ∧ t.userId = uid) ∧
    (∀ t ∈ s.todos, t.id = id → t.userId = uid →
      t ∉ (deleteTodo s id uid).2.todos) ∧
    (deleteTodo (deleteTodo s id uid).2 id uid).1 = false := by
  refine ⟨?_, ?_, ?_⟩
  · simp only [deleteTodo, decide_eq_true_eq, List.length_pos_iff_exists_mem]
    constructor
    · rintro ⟨t, ht⟩
      rw [List.mem_filter] at ht
      refine ⟨t, ht.1, ?_⟩
      have := ht.2
      simp only [Bool.and_eq_true, beq_iff_eq] at this
      exact this
    · rintro ⟨t, ht, h1, h2⟩
      refine ⟨t, ?_⟩
      rw [List.mem_filter]
      exact ⟨ht, by simp [h1, h2]⟩
  · intro t _ h1 h2 hmem
    simp only [deleteTodo] at hmem
    rw [List.mem_filter] at hmem
    have := hmem.2
    simp [h1, h2] at this
  · have hnil : (deleteTodo s id uid).2.todos.filter
        (fun t => t.id == id && t.userId == uid) = [] := by
      simp only [deleteTodo]
      rw [List.filter_filter, List.filter_eq_nil_iff]
      intro t _
      by_cases hb : (t.id == id && t.userId == uid) = true
      · simp [hb]
      · simp [hb]
    simp [deleteTodo, hnil]

/-- Witness for C6: deleting "alice"'s todo returns true once, then false. -/
theorem deleteTodo_true_exactly_once_witness :
    (deleteTodo sampleStore 0 "alice").1 = true ∧
    (deleteTodo (deleteTodo sampleStore 0 "alice").2 0 "alice").1 = false := by
  have h := deleteTodo_true_exactly_once sampleStore 0 "alice"
  refine ⟨h.1.mpr ?_, h.2.2⟩
  exact ⟨{ id := 0, userId := "alice", title := "Read", completed := false,
           dayOfWeek := 1, category := "other", priority := "medium" },
         by decide, rfl, rfl⟩

/-- Replacing every row keyed `key` by a row `v` also keyed `key` keeps the
list of ids, so uniqueness of ids is preserved. -/
theorem pairwise_ne_map_replace (l : List User) (key : String) (v : User)
    (hv : v.id = key) (hpw : l.Pairwise (fun a b => a.id ≠ b.id)) :
    (l.map (fun u => if u.id == key then v else u)).Pairwise
      (fun a b => a.id ≠ b.id) := by
  rw [List.pairwise_map]
  refine hpw.imp_of_mem ?_
  intro a b _ _ hab
  show (if (a.id == key) = true then v else a).id
    ≠ (if (b.id == key) = true then v else b).id
  by_cases ha : (a.id == key) = true <;> by_cases hb : (b.id == key) = true
  · exact absurd ((beq_iff_eq.mp ha).trans (beq_iff_eq.mp hb).symm) hab
  · rw [if_pos ha, if_neg hb, hv]
    exact fun h => hb (beq_iff_eq.mpr h.symm)
  · rw [if_neg ha, if_pos hb, hv]
    exact fun h => ha (beq_iff_eq.mpr h)
  · rw [if_neg ha, if_neg hb]
    exact hab

/-- On an id-unique list that contains a row keyed `key`, replacing the rows
keyed `key` by `v` (itself keyed `key`) leaves `[v]` as the rows keyed
`key`. -/
theorem filter_map_replace (l : List User) (key : String) (v : User)
    (hv : v.id = key) (hpw : l.Pairwise (fun a b => a.id ≠ b.id)) (e : User)
    (he : (l.filter (fun u => u.id == key)).head? = some e) :
    (l.map (fun u => if u.id == key then v else u)).filter
      (fun u => u.id == key) = [v] := by
  induction l with
  | nil => simp [List.filter] at he
  | cons a l ih =>
    rw [List.pairwise_cons] at hpw
    by_cases ha : (a.id == key) = true
    · have hne : ∀ b ∈ l, ¬(b.id == key) = true := by
        intro b hb
        rw [beq_iff_eq]
        rw [beq_iff_eq] at ha
        exact fun hbk => hpw.1 b hb (ha.trans hbk.symm)
      have hrest : l.filter (fun u => u.id == key) = [] :=
        List.filter_eq_nil_iff.mpr hne
      have hrepl : ∀ b ∈ l,
          (if b.id == key then v else b) = (fun u : User => u) b := by
        intro b hb
        show (if (b.id == key) = true then v else b) = b
        rw [if_neg (hne b hb)]
      have hmaprest : l.map (fun u => if u.id == key then v else u) = l :=
        (List.map_congr_left hrepl).trans (List.map_id l)
      rw [List.map_cons, if_pos ha, hmaprest, List.filter_cons]
      simp only [hv, beq_self_eq_true, if_true, hrest]
    · rw [List.filter_cons, if_neg ha] at he
      rw [List.map_cons, if_neg ha, List.filter_cons, if_neg ha]
      exact ih hpw.2 he

/-- Postcondition of a single `upsertUser` on an id-unique user table: the
returned row carries the payload's profile fields and the supplied timestamp,
it is the unique row keyed by the payload's id, and id-uniqueness persists. -/
theorem upsertUser_post (s : Storage) (d : UpsertUserData) (now : Nat)
    (hpw : s.users.Pairwise (fun a b => a.id ≠ b.id)) :
    (upsertUser s d now).1.id = d.id ∧
    (upsertUser s d now).1.email = d.email ∧
    (upsertUser s d now).1.firstName = d.firstName ∧
    (upsertUser s d now).1.lastName = d.lastName ∧
    (upsertUser s d now).1.profileImageUrl = d.profileImageUrl ∧
    (upsertUser s d now).1.updatedAt = now ∧
    (upsertUser s d now).2.users.filter (fun x => x.id == d.id)
      = [(upsertUser s d now).1] ∧
    (upsertUser s d now).2.users.Pairwise (fun a b => a.id ≠ b.id) := by
  rcases hcase : (s.users.filter (fun u => u.id == d.id)).head? with _ | e
  · have hnil : s.users.filter (fun u => u.id == d.id) = [] :=
      List.head?_eq_none_iff.mp hcase
    have hnotin : ∀ u ∈ s.users, ¬(u.id == d.id) = true :=
      List.filter_eq_nil_iff.mp hnil
    have heq : upsertUser s d now =
        ({ id := d.id, email := d.email, firstName := d.firstName,
           lastName := d.lastName, profileImageUrl := d.profileImageUrl,
           createdAt := now, updatedAt := now },
         { s with users := s.users ++
             [{ id := d.id, email := d.email, firstName := d.firstName,
                lastName := d.lastName, profileImageUrl := d.profileImageUrl,
                createdAt := now, updatedAt := now }] }) := by
      simp only [upsertUser, hcase]
    rw [heq]
    refine ⟨rfl, rfl, rfl, rfl, rfl, rfl, ?_, ?_⟩
    · show (s.users ++ _).filter _ = _
      rw [List.filter_append, hnil]
      simp
    · show (s.users ++ _).Pairwise _
      rw [List.pairwise_append]
      refine ⟨hpw, List.pairwise_singleton _ _, ?_⟩
      intro a ha b hb
      simp only [List.mem_singleton] at hb
      subst hb
      show a.id ≠ d.id
      have hane := hnotin a ha
      rw [beq_iff_eq] at hane
      exact hane
  · have heq : upsertUser s d now =
        ({ id := d.id, email := d.email, firstName := d.firstName,
           lastName := d.lastName, profileImageUrl := d.profileImageUrl,
           createdAt := e.createdAt, updatedAt := now },
         { s with users := s.users.map (fun u => if u.id == d.id then
             { id := d.id, email := d.email, firstName := d.firstName,
               lastName := d.lastName, profileImageUrl := d.profileImageUrl,
               createdAt := e.createdAt, updatedAt := now } else u) }) := by
      simp only [upsertUser, hcase]
    rw [heq]
    refine ⟨rfl, rfl, rfl, rfl, rfl, rfl, ?_, ?_⟩
    · exact filter_map_replace s.users d.id _ rfl hpw e hcase
    · exact pairwise_ne_map_replace s.users d.id _ rfl hpw

/-- C7: two `upsertUser` calls with the same id, the second at a strictly
later instant, leave exactly one row keyed by that id; that row (also the one
`getUser` then returns) carries the second call's mutable fields, and its
`updatedAt` is strictly later than the `updatedAt` after the first call. -/
theorem upsertUser_twice_overwrites (s : Storage) (d1 d2 : UpsertUserData)
    (t1 t2 : Nat) (hid : d2.id = d1.id) (ht : t1 < t2)
    (hpw : s.users.Pairwise (fun a b => a.id ≠ b.id)) :
    ((upsertUser (upsertUser s d1 t1).2 d2 t2).2.users.filter
      (fun x => x.id == d1.id)).length = 1 ∧
    getUser (upsertUser (upsertUser s d1 t1).2 d2 t2).2 d1.id
      = some (upsertUser (upsertUser s d1 t1).2 d2 t2).1 ∧
    (upsertUser (upsertUser s d1 t1).2 d2 t2).1.email = d2.email ∧
    (upsertUser (upsertUser s d1 t1).2 d2 t2).1.firstName = d2.firstName ∧
    (upsertUser (upsertUser s d1 t1).2 d2 t2).1.lastName = d2.lastName ∧
    (upsertUser (upsertUser s d1 t1).2 d2 t2).1.profileImageUrl
      = d2.profileImageUrl ∧
    (upsertUser s d1 t1).1.updatedAt
      < (upsertUser (upsertUser s d1 t1).2 d2 t2).1.updatedAt := by
  obtain ⟨-, -, -, -, -, hup1, -, hpw1⟩ := upsertUser_post s d1 t1 hpw
  obtain ⟨-, hem, hfn, hln, hpi, hup2, hfil2, -⟩ :=
    upsertUser_post (upsertUser s d1 t1).2 d2 t2 hpw1
  rw [hid] at hfil2
  refine ⟨by rw [hfil2]; rfl, ?_, hem, hfn, hln, hpi, ?_⟩
  · show ((upsertUser (upsertUser s d1 t1).2 d2 t2).2.users.filter
      (fun x => x.id == d1.id)).head? = _
    rw [hfil2]
    rfl
  · rw [hup1, hup2]
    exact ht

/-- Witness for C7 at the concrete store: refreshing "alice" twice with
different emails keeps one "alice" row carrying the second email, and the
update timestamp strictly increases. -/
theorem upsertUser_twice_overwrites_witness :
    ((upsertUser (upsertUser sampleStore
        { id := "alice", email := some "a1@x" } 10).2
        { id := "alice", email := some "a2@x" } 11).2.users.filter
      (fun x => x.id == "alice")).length = 1 ∧
    getUser (upsertUser (upsertUser sampleStore
        { id := "alice", email := some "a1@x" } 10).2
        { id := "alice", email := some "a2@x" } 11).2 "alice"
      = some (upsertUser (upsertUser sampleStore
        { id := "alice", email := some "a1@x" } 10).2
        { id := "alice", email := some "a2@x" } 11).1 ∧
    (upsertUser (upsertUser sampleStore
        { id := "alice", email := some "a1@x" } 10).2
        { id := "alice", email := some "a2@x" } 11).1.email = some "a2@x" ∧
    (upsertUser sampleStore { id := "alice", email := some "a1@x" } 10).1.updatedAt
      < (upsertUser (upsertUser sampleStore
          { id := "alice", email := some "a1@x" } 10).2
          { id := "alice", email := some "a2@x" } 11).1.updatedAt := by
  obtain ⟨h1, h2, h3, -, -, -, h7⟩ :=
    upsertUser_twice_overwrites sampleStore
      { id := "alice", email := some "a1@x" }
      { id := "alice", email := some "a2@x" } 10 11 rfl (by decide)
      (by decide)
  exact ⟨h1, h2, h3, h7⟩

/-- Creating todos never touches the schedule table. -/
theorem createTodo_foldl_scheduleItems (l : List InsertTodo) (s : Storage) :
    (l.foldl (fun st r => (createTodo st r).2) s).scheduleItems
      = s.scheduleItems := by
  induction l generalizing s with
  | nil => rfl
  | cons a l ih => rw [List.foldl_cons]; exact ih _

/-- Creating todos never touches the assignments table. -/
theorem createTodo_foldl_assignments (l : List InsertTodo) (s : Storage) :
    (l.foldl (fun st r => (createTodo st r).2) s).assignments
      = s.assignments := by
  induction l generalizing s with
  | nil => rfl
  | cons a l ih => rw [List.foldl_cons]; exact ih _

/-- Creating a batch of todos grows the todos table by the batch size. -/
theorem createTodo_foldl_todos_length (l : List InsertTodo) (s : Storage) :
    (l.foldl (fun st r => (createTodo st r).2) s).todos.length
      = s.todos.length + l.length := by
  induction l generalizing s with
  | nil => rfl
  | cons a l ih =>
    rw [List.foldl_cons, ih]
    show (s.todos ++ [insertTodoRow s a]).length + l.length = _
    rw [List.length_append]
    simp only [List.length_cons, List.length_nil]
    omega

/-- Creating a batch of todos all owned by `uid` grows that user's todo list
by the batch size. -/
theorem createTodo_foldl_getTodos (l : List InsertTodo) (s : Storage)
    (uid : String) (hall : ∀ r ∈ l, r.userId = uid) :
    (getTodos (l.foldl (fun st r => (createTodo st r).2) s) uid).length
      = (getTodos s uid).length + l.length := by
  induction l generalizing s with
  | nil => rfl
  | cons a l ih =>
    rw [List.foldl_cons,
        ih _ (fun r hr => hall r (List.mem_cons_of_mem a hr))]
    have hstep : getTodos (createTodo s a).2 uid
        = getTodos s uid ++ [insertTodoRow s a] := by
      show (s.todos ++ [insertTodoRow s a]).filter _ = _
      rw [List.filter_append]
      congr 1
      simp [insertTodoRow, hall a (List.mem_cons_self a l)]
    rw [hstep, List.length_append]
    simp only [List.length_cons, List.length_nil]
    omega

/-- Creating schedule items never touches the todos table. -/
theorem createScheduleItem_foldl_todos (l : List InsertScheduleItem)
    (s : Storage) :
    (l.foldl (fun st r => (createScheduleItem st r).2) s).todos = s.todos := by
  induction l generalizing s with
  | nil => rfl
  | cons a l ih => rw [List.foldl_cons]; exact ih _

/-- Creating schedule items never touches the assignments table. -/
theorem createScheduleItem_foldl_assignments (l : List InsertScheduleItem)
    (s : Storage) :
    (l.foldl (fun st r => (createScheduleItem st r).2) s).assignments
      = s.assignments := by
  induction l generalizing s with
  | nil => rfl
  | cons a l ih => rw [List.foldl_cons]; exact ih _

/-- Creating a batch of schedule items grows the schedule table by the batch
size. -/
theorem createScheduleItem_foldl_length (l : List InsertScheduleItem)
    (s : Storage) :
    (l.foldl (fun st r => (createScheduleItem st r).2) s).scheduleItems.length
      = s.scheduleItems.length + l.length := by
  induction l generalizing s with
  | nil => rfl
  | cons a l ih =>
    rw [List.foldl_cons, ih]
    show (s.scheduleItems ++ [insertScheduleItemRow s a]).length + l.length = _
    rw [List.length_append]
    simp only [List.length_cons, List.length_nil]
    omega

/-- Creating assignments never touches the todos table. -/
theorem createAssignment_foldl_todos (l : List InsertAssignment) (s : Storage) :
    (l.foldl (fun st r => (createAssignment st r).2) s).todos = s.todos := by
  induction l generalizing s with
  | nil => rfl
  | cons a l ih => rw [List.foldl_cons]; exact ih _

/-- Creating assignments never touches the schedule table. -/
theorem createAssignment_foldl_scheduleItems (l : List InsertAssignment)
    (s : Storage) :
    (l.foldl (fun st r => (createAssignment st r).2) s).scheduleItems
      = s.scheduleItems := by
  induction l generalizing s with
  | nil => rfl
  | cons a l ih => rw [List.foldl_cons]; exact ih _

/-- Creating a batch of assignments appends their due dates in order. -/
theorem createAssignment_foldl_dueDates (l : List InsertAssignment)
    (s : Storage) :
    (l.foldl (fun st r => (createAssignment st r).2) s).assignments.map
        Assignment.dueDate
      = s.assignments.map Assignment.dueDate
          ++ l.map InsertAssignment.dueDate := by
  induction l generalizing s with
  | nil => simp
  | cons a l ih =>
    rw [List.foldl_cons, ih]
    show (s.assignments ++ [insertAssignmentRow s a]).map _ ++ _ = _
    rw [List.map_append]
    simp [insertAssignmentRow]

/-- C4: `seedUserData` on a user with no todos inserts exactly 11 todos (all
owned by that user), 20 schedule items, and 3 assignments whose due dates are
the renderings of today advanced by 5, 10 and 3 days; running `seedUserData`
again on the result (at any later date) is a no-op, because the guard sees the
user's todos. -/
theorem seedUserData_counts_and_idempotent (s : Storage) (uid : String)
    (d d2 : Nat → String) (h : getTodos s uid = []) :
    (seedUserData s uid d).todos.length = s.todos.length + 11 ∧
    (seedUserData s uid d).scheduleItems.length
      = s.scheduleItems.length + 20 ∧
    (seedUserData s uid d).assignments.length = s.assignments.length + 3 ∧
    (getTodos (seedUserData s uid d) uid).length = 11 ∧
    (seedUserData s uid d).assignments.map Assignment.dueDate
      = s.assignments.map Assignment.dueDate ++ [d 5, d 10, d 3] ∧
    seedUserData (seedUserData s uid d) uid d2 = seedUserData s uid d := by
  have hg : ¬ (getTodos s uid).length > 0 := by rw [h]; simp
  have hseed : seedUserData s uid d =
      (seedAssignmentRecords uid d).foldl (fun st r => (createAssignment st r).2)
        ((seedScheduleRecords uid).foldl (fun st r => (createScheduleItem st r).2)
          ((seedTodoRecords uid).foldl (fun st r => (createTodo st r).2) s)) := by
    rw [seedUserData, if_neg hg]
  have hall : ∀ r ∈ seedTodoRecords uid, r.userId = uid := by
    intro r hr
    simp only [seedTodoRecords, List.mem_cons, List.not_mem_nil, or_false] at hr
    rcases hr with h1 | h1 | h1 | h1 | h1 | h1 | h1 | h1 | h1 | h1 | h1 <;>
      subst h1 <;> rfl
  have hTtodos : ((seedTodoRecords uid).foldl
      (fun st r => (createTodo st r).2) s).todos.length
        = s.todos.length + 11 := by
    rw [createTodo_foldl_todos_length]
    rfl
  have hTget : (getTodos ((seedTodoRecords uid).foldl
      (fun st r => (createTodo st r).2) s) uid).length = 11 := by
    rw [createTodo_foldl_getTodos _ _ _ hall, h]
    rfl
  have htodos : (seedUserData s uid d).todos
      = ((seedTodoRecords uid).foldl (fun st r => (createTodo st r).2) s).todos := by
    rw [hseed, createAssignment_foldl_todos, createScheduleItem_foldl_todos]
  have hget : (getTodos (seedUserData s uid d) uid).length = 11 := by
    rw [show getTodos (seedUserData s uid d) uid
          = (seedUserData s uid d).todos.filter (fun t => t.userId == uid) from rfl,
        htodos]
    exact hTget
  refine ⟨?_, ?_, ?_, hget, ?_, ?_⟩
  · rw [htodos]
    exact hTtodos
  · rw [hseed, createAssignment_foldl_scheduleItems,
        createScheduleItem_foldl_length, createTodo_foldl_scheduleItems]
    rfl
  · have hdue := createAssignment_foldl_dueDates (seedAssignmentRecords uid d)
      ((seedScheduleRecords uid).foldl (fun st r => (createScheduleItem st r).2)
        ((seedTodoRecords uid).foldl (fun st r => (createTodo st r).2) s))
    have hlen := congrArg List.length hdue
    rw [List.length_map, List.length_append, List.length_map, List.length_map,
        createScheduleItem_foldl_assignments, createTodo_foldl_assignments]
      at hlen
    rw [hseed, hlen]
    rfl
  · rw [hseed, createAssignment_foldl_dueDates,
        createScheduleItem_foldl_assignments, createTodo_foldl_assignments]
    rfl
  · rw [seedUserData, if_pos]
    rw [hget]
    simp

/-- Witness for C4: seeding an empty store for "u1" with a concrete date
renderer. -/
theorem seedUserData_counts_and_idempotent_witness :
    (seedUserData {} "u1" (fun n => toString n)).todos.length
      = (({} : Storage)).todos.length + 11 ∧
    (seedUserData {} "u1" (fun n => toString n)).scheduleItems.length
      = (({} : Storage)).scheduleItems.length + 20 ∧
    (seedUserData {} "u1" (fun n => toString n)).assignments.length
      = (({} : Storage)).assignments.length + 3 ∧
    (getTodos (seedUserData {} "u1" (fun n => toString n)) "u1").length = 11 ∧
    (seedUserData {} "u1" (fun n => toString n)).assignments.map
        Assignment.dueDate
      = (({} : Storage)).assignments.map Assignment.dueDate
          ++ [toString 5, toString 10, toString 3] ∧
    seedUserData (seedUserData {} "u1" (fun n => toString n)) "u1"
        (fun n => toString n)
      = seedUserData {} "u1" (fun n => toString n) :=
  seedUserData_counts_and_idempotent {} "u1" (fun n => toString n)
    (fun n => toString n) rfl

/-- C10: a partial update with an empty field set makes the underlying
`db.update(...).set({})` throw ("No values to set") instead of returning the
row or reporting absence, and the PATCH handler's catch block turns that into
the generic 500 failure response — not a success and not a 404 — leaving the
store untouched. -/
theorem patch_empty_body_is_server_error (s : Storage) (uid : String)
    (id : Nat) :
    updateTodo s id uid emptyTodoUpdates = .error "No values to set" ∧
    patchTodoHandler s uid id emptyTodoUpdates
      = (.serverError500, s) := by
  exact ⟨rfl, rfl⟩

/-- C2, divergence at a concrete input: on the create path the body's
`userId` is overridden by the authenticated caller ("alice"), but on the
PATCH path the raw body reaches the store unvalidated, so a `userId` key in
the body rewrites the row's owner to "bob". -/
theorem patch_body_userId_transfers_ownership :
    (postTodoHandler sampleStore "alice"
        { userId := some "bob", title := some "X", dayOfWeek := some 2 }).1
      = .created201 { id := 4, userId := "alice", title := "X",
                      completed := false, dayOfWeek := 2, category := "other",
                      priority := "medium" } ∧
    (patchTodoHandler sampleStore "alice" 0
        { userId := some "bob" }).2.todos
      = [{ id := 0, userId := "bob", title := "Read", completed := false,
           dayOfWeek := 1, category := "other", priority := "medium" }] := by
  exact ⟨rfl, rfl⟩

/-- C8, divergence at a concrete input: the creation schemas omit `id`, but
the PATCH handler forwards the raw body to `db.update(...).set`, so a body
carrying `{id: 99}` rewrites the primary key of "alice"'s row 0. -/
theorem patch_body_id_changes_row_id :
    (patchTodoHandler sampleStore "alice" 0 { id := some 99 }).2.todos
      = [{ id := 99, userId := "alice", title := "Read", completed := false,
           dayOfWeek := 1, category := "other", priority := "medium" }] ∧
    (patchTodoHandler sampleStore "alice" 0 { id := some 99 }).1
      = .json200 { id := 99, userId := "alice", title := "Read",
                   completed := false, dayOfWeek := 1, category := "other",
                   priority := "medium" } := by
  exact ⟨rfl, rfl⟩

/-- C9, counterexample: the very first todo inserted by `seedUserData`
carries category "daily", which is not one of the enumerated `TaskCategory`
tags. -/
theorem seeded_todo_category_outside_enum :
    ((seedUserData {} "u1" (fun n => toString n)).todos.map
        Todo.category).head? = some "daily" ∧
    "daily" ∉ TaskCategory := by
  exact ⟨rfl, by decide⟩

/-- Todos created through a fold of `createTodo` satisfy any property that
holds of the prior rows and of every row the batch can insert. -/
theorem createTodo_foldl_mem (l : List InsertTodo) (s : Storage)
    (P : Todo → Prop) (hs : ∀ t ∈ s.todos, P t)
    (hl : ∀ st : Storage, ∀ r ∈ l, P (insertTodoRow st r)) :
    ∀ t ∈ (l.foldl (fun st r => (createTodo st r).2) s).todos, P t := by
  induction l generalizing s with
  | nil => exact hs
  | cons a l ih =>
    rw [List.foldl_cons]
    refine ih _ ?_ (fun st r hr => hl st r (List.mem_cons_of_mem a hr))
    intro t ht
    have hmem : t ∈ s.todos ++ [insertTodoRow s a] := ht
    rw [List.mem_append] at hmem
    rcases hmem with h1 | h1
    · exact hs t h1
    · rw [List.mem_singleton] at h1
      subst h1
      exact hl s a (List.mem_cons_self a l)

/-- Schedule-item analogue of `createTodo_foldl_mem`. -/
theorem createScheduleItem_foldl_mem (l : List InsertScheduleItem)
    (s : Storage) (P : ScheduleItem → Prop)
    (hs : ∀ t ∈ s.scheduleItems, P t)
    (hl : ∀ st : Storage, ∀ r ∈ l, P (insertScheduleItemRow st r)) :
    ∀ t ∈ (l.foldl (fun st r => (createScheduleItem st r).2) s).scheduleItems,
      P t := by
  induction l generalizing s with
  | nil => exact hs
  | cons a l ih =>
    rw [List.foldl_cons]
    refine ih _ ?_ (fun st r hr => hl st r (List.mem_cons_of_mem a hr))
    intro t ht
    have hmem : t ∈ s.scheduleItems ++ [insertScheduleItemRow s a] := ht
    rw [List.mem_append] at hmem
    rcases hmem with h1 | h1
    · exact hs t h1
    · rw [List.mem_singleton] at h1
      subst h1
      exact hl s a (List.mem_cons_self a l)

/-- Assignment analogue of `createTodo_foldl_mem`. -/
theorem createAssignment_foldl_mem (l : List InsertAssignment)
    (s : Storage) (P : Assignment → Prop)
    (hs : ∀ t ∈ s.assignments, P t)
    (hl : ∀ st : Storage, ∀ r ∈ l, P (insertAssignmentRow st r)) :
    ∀ t ∈ (l.foldl (fun st r => (createAssignment st r).2) s).assignments,
      P t := by
  induction l generalizing s with
  | nil => exact hs
  | cons a l ih =>
    rw [List.foldl_cons]
    refine ih _ ?_ (fun st r hr => hl st r (List.mem_cons_of_mem a hr))
    intro t ht
    have hmem : t ∈ s.assignments ++ [insertAssignmentRow s a] := ht
    rw [List.mem_append] at hmem
    rcases hmem with h1 | h1
    · exact hs t h1
    · rw [List.mem_singleton] at h1
      subst h1
      exact hl s a (List.mem_cons_self a l)

/-- C9 as amended: the category column is not constrained to the enumerated
tags.  What does hold: a created todo's category defaults to "other" when the
key is omitted and otherwise is whatever string was supplied; todos inserted
by seeding carry "daily" or "monthly" (outside the enumeration), while seeded
schedule items and assignments carry enumerated tags. -/
theorem todo_category_default_and_seeded (s : Storage) (r : InsertTodo)
    (uid : String) (d : Nat → String) :
    (r.category = none → (createTodo s r).1.category = "other") ∧
    (∀ c, r.category = some c → (createTodo s r).1.category = c) ∧
    (∀ t ∈ (seedUserData s uid d).todos,
      t ∈ s.todos ∨ t.category = "daily" ∨ t.category = "monthly") ∧
    (∀ t ∈ (seedUserData s uid d).scheduleItems,
      t ∈ s.scheduleItems ∨ t.category ∈ TaskCategory) ∧
    (∀ t ∈ (seedUserData s uid d).assignments,
      t ∈ s.assignments ∨ t.category ∈ TaskCategory) := by
  refine ⟨?_, ?_, ?_, ?_, ?_⟩
  · intro hc
    simp [createTodo, insertTodoRow, hc]
  · intro c hc
    simp [createTodo, insertTodoRow, hc]
  · by_cases hg : (getTodos s uid).length > 0
    · rw [seedUserData, if_pos hg]
      intro t ht
      exact Or.inl ht
    · rw [seedUserData, if_neg hg]
      intro t ht
      rw [createAssignment_foldl_todos, createScheduleItem_foldl_todos] at ht
      refine createTodo_foldl_mem _ s
        (fun x => x ∈ s.todos ∨ x.category = "daily" ∨ x.category = "monthly")
        (fun x hx => Or.inl hx) ?_ t ht
      intro st q hq
      right
      simp only [seedTodoRecords, List.mem_cons, List.not_mem_nil, or_false]
        at hq
      rcases hq with h1|h1|h1|h1|h1|h1|h1|h1|h1|h1|h1 <;> subst h1 <;>
        simp [insertTodoRow]
  · by_cases hg : (getTodos s uid).length > 0
    · rw [seedUserData, if_pos hg]
      intro t ht
      exact Or.inl ht
    · rw [seedUserData, if_neg hg]
      intro t ht
      rw [createAssignment_foldl_scheduleItems] at ht
      refine createScheduleItem_foldl_mem _ _
        (fun x => x ∈ s.scheduleItems ∨ x.category ∈ TaskCategory)
        ?_ ?_ t ht
      · intro x hx
        rw [createTodo_foldl_scheduleItems] at hx
        exact Or.inl hx
      · intro st q hq
        right
        simp only [seedScheduleRecords, List.mem_cons, List.not_mem_nil,
          or_false] at hq
        rcases hq with h1|h1|h1|h1|h1|h1|h1|h1|h1|h1|h1|h1|h1|h1|h1|h1|h1|h1|h1|h1 <;>
          subst h1 <;> simp [insertScheduleItemRow, TaskCategory]
  · by_cases hg : (getTodos s uid).length > 0
    · rw [seedUserData, if_pos hg]
      intro t ht
      exact Or.inl ht
    · rw [seedUserData, if_neg hg]
      intro t ht
      refine createAssignment_foldl_mem _ _
        (fun x => x ∈ s.assignments ∨ x.category ∈ TaskCategory)
        ?_ ?_ t ht
      · intro x hx
        rw [createScheduleItem_foldl_assignments,
          createTodo_foldl_assignments] at hx
        exact Or.inl hx
      · intro st q hq
        right
        simp only [seedAssignmentRecords, List.mem_cons, List.not_mem_nil,
          or_false] at hq
        rcases hq with h1|h1|h1 <;> subst h1 <;>
          simp [insertAssignmentRow, TaskCategory]

/-- Witness for the amended C9 at concrete inputs: category defaults to
"other" when omitted, and the seeded todos of a fresh store are all "daily"
or "monthly". -/
theorem todo_category_default_and_seeded_witness :
    ((createTodo sampleStore
        { userId := "alice", title := "T", dayOfWeek := 1 }).1.category
      = "other") ∧
    (∀ t ∈ (seedUserData sampleStore "carol" (fun n => toString n)).todos,
      t ∈ sampleStore.todos ∨ t.category = "daily" ∨
        t.category = "monthly") := by
  obtain ⟨h1, -, h3, -, -⟩ :=
    todo_category_default_and_seeded sampleStore
      { userId := "alice", title := "T", dayOfWeek := 1 } "carol"
      (fun n => toString n)
  exact ⟨h1 rfl, h3⟩

end Too
